import Mathlib

/-!
Shallow embedding of src/simple_cors_proxy.py.

The repository is a single-file CORS proxy built on the Python standard
library: `CORSProxyHandler.do_GET` routes on the request path, parses the
query string with `urllib.parse.parse_qs`, issues one outbound GET through
`urllib.request.urlopen`, and relays the upstream body with fixed CORS
headers; `do_OPTIONS` answers preflight requests with the same CORS
headers and no body.

Modelling choices:
* Python `str` values (paths, query strings, header names and values,
  error messages) and `bytes` values (upstream bodies) are both embedded
  as `List Nat`, one entry per character code / byte.  All literals in the
  program are ASCII, where the two notions agree.
* `urllib.parse.parse_qs` is embedded with its default arguments, which
  are the ones the program uses: separator `&`, blank values dropped
  (`keep_blank_values=False`), non-strict parsing, plus-to-space and
  percent-decoding applied to names and values.  CPython decodes the
  percent-decoded byte runs as UTF-8 with replacement characters; this
  embedding stays at byte level, which coincides on ASCII data.
* The outbound world is an oracle `fetch : List Nat → Except (List Nat)
  (List Nat)`: `.ok data` means `urllib.request.urlopen(req)` succeeded
  and `response.read()` returned `data`; `.error e` means some exception
  with description `e` (that is, `str(e)`) was raised while constructing
  the request, connecting, or reading.  The handler also returns the list
  of outbound requests it issued, so that claims about the outbound
  traffic can be stated.
* `BaseHTTPRequestHandler.send_error` (standard library) is embedded as a
  response whose status is the given code and whose body embeds the given
  message verbatim; the HTML boilerplate of the CPython template is kept
  abstractly as a prefix and suffix around the message, and its HTML
  escaping of the message is abstracted away.
* The `print` diagnostics of the handler are observability only and are
  not modelled.
-/

namespace CorsProxy

/-- Character codes of an ASCII string, the byte-level view of a Python
`str` restricted to ASCII data. -/
def asciiBytes (s : String) : List Nat := s.data.map Char.toNat

/-- Value of one hex digit, as used by percent-decoding
(`urllib.parse.unquote`). -/
def hexVal (b : Nat) : Option Nat :=
  if 48 ≤ b ∧ b ≤ 57 then some (b - 48)
  else if 65 ≤ b ∧ b ≤ 70 then some (b - 55)
  else if 97 ≤ b ∧ b ≤ 102 then some (b - 87)
  else none

/-- The `.replace('+', ' ')` step of `urllib.parse.unquote_plus`:
byte 43 is the plus sign, byte 32 the space. -/
def plusToSpace (l : List Nat) : List Nat :=
  l.map fun b => if b = 43 then 32 else b

/-- Percent-decoding as in `urllib.parse.unquote`: byte 37 is the percent
sign; a percent sign followed by two hex digits decodes to the denoted
byte, otherwise it is kept literally (CPython keeps invalid escapes
as-is). -/
def percentDecode : List Nat → List Nat
  | [] => []
  | [b] => [b]
  | [b, c] => [b, c]
  | b :: c :: d :: rest =>
    if b = 37 then
      match hexVal c, hexVal d with
      | some hi, some lo => (16 * hi + lo) :: percentDecode rest
      | _, _ => b :: percentDecode (c :: d :: rest)
    else b :: percentDecode (c :: d :: rest)

/-- `urllib.parse.unquote_plus`: plus-to-space, then percent-decoding. -/
def unquotePlus (l : List Nat) : List Nat := percentDecode (plusToSpace l)

/-- Split a chunk at the first occurrence of `sep`, the embedding of
Python `chunk.split(sep, 1)`; `none` when `sep` does not occur (the
one-element result list in Python). -/
def splitFirst (sep : Nat) : List Nat → Option (List Nat × List Nat)
  | [] => none
  | b :: rest =>
    if b = sep then some ([], rest)
    else (splitFirst sep rest).map fun p => (b :: p.1, p.2)

/-- `urllib.parse.parse_qsl` with the default arguments used by the
program: split on the ampersand (byte 38), skip empty chunks, skip chunks
without an equals sign (byte 61), skip pairs whose value is blank
(`keep_blank_values=False`), decode names and values with
`unquote_plus`. -/
def parse_qsl (qs : List Nat) : List (List Nat × List Nat) :=
  (qs.splitOn 38).filterMap fun chunk =>
    match splitFirst 61 chunk with
    | none => none
    | some (n, v) =>
      if v = [] then none else some (unquotePlus n, unquotePlus v)

/-- Append a value to the entry of key `k`, creating the entry at the end
when absent: the embedding of `dict.setdefault(name, []).append(value)`
inside `parse_qs`, with the dict as an ordered association list. -/
def insertVal (d : List (List Nat × List (List Nat))) (k : List Nat)
    (v : List Nat) : List (List Nat × List (List Nat)) :=
  match d with
  | [] => [(k, [v])]
  | (k₁, vs) :: rest =>
    if k₁ = k then (k₁, vs ++ [v]) :: rest
    else (k₁, vs) :: insertVal rest k v

/-- `urllib.parse.parse_qs`: group the pairs of `parse_qsl` by key,
preserving order of first appearance of each key and order of values. -/
def parse_qs (qs : List Nat) : List (List Nat × List (List Nat)) :=
  (parse_qsl qs).foldl (fun d p => insertVal d p.1 p.2) []

/-- Dictionary lookup on the ordered association list produced by
`parse_qs`: `some vs` exactly when the key is present (`k in params`),
in which case `vs` is `params[k]`. -/
def lookupQS (d : List (List Nat × List (List Nat))) (k : List Nat) :
    Option (List (List Nat)) :=
  (d.find? fun p => p.1 == k).map (·.2)

/-- An outbound HTTP request as built by the handler:
`urllib.request.Request(target_url)` followed by `add_header`. -/
structure OutboundRequest where
  method : List Nat
  url : List Nat
  headers : List (List Nat × List Nat)
  deriving DecidableEq

/-- An HTTP response as sent to the original caller: the status of
`send_response`/`send_error`, the explicitly set headers in order, and
the body bytes written after `end_headers`. -/
structure Response where
  status : Nat
  headers : List (List Nat × List Nat)
  body : List Nat
  deriving DecidableEq

/-- The literal User-Agent header value set on every outbound request. -/
def userAgentBytes : List Nat :=
  asciiBytes "Mozilla/5.0 (Windows NT 10.0; Win64; x64) AppleWebKit/537.36"

/-- The three CORS headers sent by both handlers, in source order. -/
def corsHeaders : List (List Nat × List Nat) :=
  [(asciiBytes "Access-Control-Allow-Origin", asciiBytes "*"),
   (asciiBytes "Access-Control-Allow-Methods", asciiBytes "GET, POST, OPTIONS"),
   (asciiBytes "Access-Control-Allow-Headers", asciiBytes "Content-Type")]

/-- The four headers of a successful proxied GET response: the three CORS
headers followed by the hardcoded Content-Type. -/
def corsJsonHeaders : List (List Nat × List Nat) :=
  corsHeaders ++ [(asciiBytes "Content-Type", asciiBytes "application/json")]

/-- `BaseHTTPRequestHandler.send_error code message` (Python standard
library): status `code`, the error-page headers, and an HTML body that
embeds `message` verbatim between the template boilerplate (the HTML
escaping CPython applies to the message is abstracted away). -/
def send_error (code : Nat) (message : List Nat) : Response :=
  { status := code
    headers := [(asciiBytes "Content-Type", asciiBytes "text/html;charset=utf-8"),
                (asciiBytes "Connection", asciiBytes "close")]
    body := asciiBytes "Error response: Message: " ++ message
              ++ asciiBytes ". Error code explanation." }

/-- Message of the 400 response, `Missing 'url' parameter` in the source
(byte 39 is the apostrophe). -/
def missingUrlMsg : List Nat :=
  asciiBytes "Missing " ++ [39] ++ asciiBytes "url" ++ [39] ++ asciiBytes " parameter"

/-- Message of the 404 response. -/
def notFoundMsg : List Nat := asciiBytes "Not Found"

/-- Message prefix of the 500 response: `Proxy Error: {str(e)}`. -/
def proxyErrorMsg (e : List Nat) : List Nat := asciiBytes "Proxy Error: " ++ e

/-- Key `url` of the query mapping. -/
def urlKey : List Nat := asciiBytes "url"

/-- The routing prefix `/proxy?` checked by `self.path.startswith`. -/
def proxyPrefix : List Nat := asciiBytes "/proxy?"

/-- `CORSProxyHandler.do_GET`.  Inputs: the request path (`self.path`),
the headers of the incoming request (`self.headers` — never read by the
source, included to state independence), and the fetch oracle for the
outbound world.  Output: the response sent to the caller and the list of
outbound requests issued.  The `some []` branch is unreachable
(`parse_qs` never maps a key to an empty list) and mirrors the
`IndexError` that `params[url][0]` would raise being caught by the
enclosing `except` block. -/
def do_GET (path : List Nat) (callerHeaders : List (List Nat × List Nat))
    (fetch : List Nat → Except (List Nat) (List Nat)) :
    Response × List OutboundRequest :=
  if proxyPrefix.isPrefixOf path then
    match lookupQS (parse_qs (path.drop 7)) urlKey with
    | none => (send_error 400 missingUrlMsg, [])
    | some [] =>
        (send_error 500 (proxyErrorMsg (asciiBytes "list index out of range")), [])
    | some (target :: _) =>
      let req : OutboundRequest :=
        { method := asciiBytes "GET"
          url := target
          headers := [(asciiBytes "User-Agent", userAgentBytes)] }
      match fetch target with
      | .ok data =>
          ({ status := 200, headers := corsJsonHeaders, body := data }, [req])
      | .error e => (send_error 500 (proxyErrorMsg e), [req])
  else (send_error 404 notFoundMsg, [])

/-- `CORSProxyHandler.do_OPTIONS`: status 200, the three CORS headers, no
body, and no access to the outbound world at all (the empty request list
records that no outbound request is made). -/
def do_OPTIONS (path : List Nat) : Response × List OutboundRequest :=
  ({ status := 200, headers := corsHeaders, body := [] }, [])

/-- A fetch oracle that always fails, used in closed statements where the
outbound world is never consulted. -/
def fetchStub : List Nat → Except (List Nat) (List Nat) :=
  fun _ => .error (asciiBytes "unreachable")

/-- A fetch oracle that always succeeds with body `hello`, used in closed
witness statements. -/
def fetchOk : List Nat → Except (List Nat) (List Nat) :=
  fun _ => .ok (asciiBytes "hello")

/-- A fetch oracle that succeeds with body `hello` exactly on the target
`a` (byte 97), used to witness that only the value of the oracle at the
derived target matters. -/
def fetchOkOnA : List Nat → Except (List Nat) (List Nat) :=
  fun t => if t = [97] then .ok (asciiBytes "hello") else .error (asciiBytes "down")

/-- A fetch oracle that always fails with description `connection refused`,
used in closed witness statements about the error path. -/
def fetchRefused : List Nat → Except (List Nat) (List Nat) :=
  fun _ => .error (asciiBytes "connection refused")

/-- C1: for every GET request whose path begins with `/proxy?` and whose
decoded query contains a `url` key, if the outbound fetch of the target
succeeds, the handler responds with status 200, exactly the four headers
Access-Control-Allow-Origin, Access-Control-Allow-Methods,
Access-Control-Allow-Headers and Content-Type with their fixed values,
and a body equal byte-for-byte to the upstream response body. -/
theorem do_GET_success_response (p : List Nat) (hs : List (List Nat × List Nat))
    (f : List Nat → Except (List Nat) (List Nat)) (t : List Nat)
    (r : List (List Nat)) (data : List Nat)
    (hp : proxyPrefix.isPrefixOf p = true)
    (hu : lookupQS (parse_qs (p.drop 7)) urlKey = some (t :: r))
    (hf : f t = .ok data) :
    (do_GET p hs f).1 = { status := 200, headers := corsJsonHeaders, body := data } := by
  simp [do_GET, hp, hu, hf]

/-- Witness for C1 at the concrete path `/proxy?url=http%3A%2F%2Fa` and an
oracle returning body `hello`. -/
theorem do_GET_success_response_witness :
    proxyPrefix.isPrefixOf (asciiBytes "/proxy?url=http%3A%2F%2Fa") = true ∧
    lookupQS (parse_qs ((asciiBytes "/proxy?url=http%3A%2F%2Fa").drop 7)) urlKey
      = some [asciiBytes "http://a"] ∧
    fetchOk (asciiBytes "http://a") = .ok (asciiBytes "hello") ∧
    (do_GET (asciiBytes "/proxy?url=http%3A%2F%2Fa") [] fetchOk).1
      = { status := 200, headers := corsJsonHeaders, body := asciiBytes "hello" } :=
  ⟨by decide, by decide, rfl,
    do_GET_success_response (asciiBytes "/proxy?url=http%3A%2F%2Fa") [] fetchOk
      (asciiBytes "http://a") [] (asciiBytes "hello") (by decide) (by decide) rfl⟩

/-- C2: for every GET request on a path beginning with `/proxy?` that
reaches the fetch step, if the fetch raises (the oracle returns an error
description), the handler responds with status 500 and a body containing
that description; totality of `do_GET` embeds the absence of an unhandled
crash. -/
theorem do_GET_upstream_error (p : List Nat) (hs : List (List Nat × List Nat))
    (f : List Nat → Except (List Nat) (List Nat)) (t : List Nat)
    (r : List (List Nat)) (e : List Nat)
    (hp : proxyPrefix.isPrefixOf p = true)
    (hu : lookupQS (parse_qs (p.drop 7)) urlKey = some (t :: r))
    (hf : f t = .error e) :
    (do_GET p hs f).1.status = 500 ∧
    ∃ a b, (do_GET p hs f).1.body = a ++ e ++ b := by
  have hres : (do_GET p hs f).1 = send_error 500 (proxyErrorMsg e) := by
    simp [do_GET, hp, hu, hf]
  refine ⟨by rw [hres]; rfl, ?_⟩
  refine ⟨asciiBytes "Error response: Message: " ++ asciiBytes "Proxy Error: ",
          asciiBytes ". Error code explanation.", ?_⟩
  rw [hres]
  simp [send_error, proxyErrorMsg]

/-- Witness for C2 at the concrete path `/proxy?url=x` and an oracle
failing with description `connection refused`. -/
theorem do_GET_upstream_error_witness :
    proxyPrefix.isPrefixOf (asciiBytes "/proxy?url=x") = true ∧
    lookupQS (parse_qs ((asciiBytes "/proxy?url=x").drop 7)) urlKey
      = some [asciiBytes "x"] ∧
    fetchRefused (asciiBytes "x") = .error (asciiBytes "connection refused") ∧
    ((do_GET (asciiBytes "/proxy?url=x") [] fetchRefused).1.status = 500 ∧
      ∃ a b, (do_GET (asciiBytes "/proxy?url=x") [] fetchRefused).1.body
        = a ++ asciiBytes "connection refused" ++ b) :=
  ⟨by decide, by decide, rfl,
    do_GET_upstream_error (asciiBytes "/proxy?url=x") [] fetchRefused
      (asciiBytes "x") [] (asciiBytes "connection refused")
      (by decide) (by decide) rfl⟩

/-- C3: for every GET request whose path begins with `/proxy?` but whose
decoded query mapping has no `url` key, the handler responds with status
400 and an error message, and no outbound request is attempted. -/
theorem do_GET_missing_url (p : List Nat) (hs : List (List Nat × List Nat))
    (f : List Nat → Except (List Nat) (List Nat))
    (hp : proxyPrefix.isPrefixOf p = true)
    (hu : lookupQS (parse_qs (p.drop 7)) urlKey = none) :
    do_GET p hs f = (send_error 400 missingUrlMsg, []) ∧
    (send_error 400 missingUrlMsg).status = 400 := by
  refine ⟨?_, rfl⟩
  simp [do_GET, hp, hu]

/-- Witness for C3 at the concrete path `/proxy?foo=bar`. -/
theorem do_GET_missing_url_witness :
    proxyPrefix.isPrefixOf (asciiBytes "/proxy?foo=bar") = true ∧
    lookupQS (parse_qs ((asciiBytes "/proxy?foo=bar").drop 7)) urlKey = none ∧
    (do_GET (asciiBytes "/proxy?foo=bar") [] fetchStub
        = (send_error 400 missingUrlMsg, []) ∧
      (send_error 400 missingUrlMsg).status = 400) :=
  ⟨by decide, by decide, do_GET_missing_url _ _ _ (by decide) (by decide)⟩

/-- C4: for every GET request whose path does not begin with the literal
prefix `/proxy?`, the handler responds with status 404 and makes no
outbound request. -/
theorem do_GET_not_found (p : List Nat) (hs : List (List Nat × List Nat))
    (f : List Nat → Except (List Nat) (List Nat))
    (hp : proxyPrefix.isPrefixOf p = false) :
    do_GET p hs f = (send_error 404 notFoundMsg, []) ∧
    (send_error 404 notFoundMsg).status = 404 := by
  refine ⟨?_, rfl⟩
  simp [do_GET, hp]

/-- Witness for C4 at the concrete path `/other`. -/
theorem do_GET_not_found_witness :
    proxyPrefix.isPrefixOf (asciiBytes "/other") = false ∧
    (do_GET (asciiBytes "/other") [] fetchStub = (send_error 404 notFoundMsg, []) ∧
      (send_error 404 notFoundMsg).status = 404) :=
  ⟨by decide, do_GET_not_found _ _ _ (by decide)⟩

/-- C5, counterexample: the path `/proxy` without a query string does not
start with the prefix `/proxy?`, so the handler answers 404, not the 400
the claim states. -/
theorem do_GET_bare_proxy_counterexample :
    (do_GET (asciiBytes "/proxy") [] fetchStub).1.status ≠ 400 ∧
    (do_GET (asciiBytes "/proxy") [] fetchStub).1.status = 404 := by decide

/-- C5, amended: a GET request with path exactly `/proxy` (no query
string) receives a response with status 404 and no outbound request is
made, for every caller-header list and fetch oracle. -/
theorem do_GET_bare_proxy_amended (hs : List (List Nat × List Nat))
    (f : List Nat → Except (List Nat) (List Nat)) :
    do_GET (asciiBytes "/proxy") hs f = (send_error 404 notFoundMsg, []) ∧
    (send_error 404 notFoundMsg).status = 404 := by
  have hp : proxyPrefix.isPrefixOf (asciiBytes "/proxy") = false := by decide
  exact ⟨by simp [do_GET, hp], rfl⟩

/-- C6: for every OPTIONS request, on any path, the handler responds with
status 200, exactly the three CORS headers, an empty body, and makes no
outbound request. -/
theorem do_OPTIONS_preflight (p : List Nat) :
    do_OPTIONS p = ({ status := 200, headers := corsHeaders, body := [] }, []) := rfl

/-- C7: for every GET request that reaches the fetch step, exactly one
outbound GET request is issued, its target is the first decoded `url`
value, its only header is the literal User-Agent string, and the caller
headers have no influence on the handler at all. -/
theorem do_GET_outbound_request (p : List Nat) (hs : List (List Nat × List Nat))
    (f : List Nat → Except (List Nat) (List Nat)) (t : List Nat)
    (r : List (List Nat))
    (hp : proxyPrefix.isPrefixOf p = true)
    (hu : lookupQS (parse_qs (p.drop 7)) urlKey = some (t :: r)) :
    (do_GET p hs f).2 = [{ method := asciiBytes "GET", url := t,
                           headers := [(asciiBytes "User-Agent", userAgentBytes)] }] ∧
    ∀ hs₂, do_GET p hs₂ f = do_GET p hs f := by
  refine ⟨?_, fun hs₂ => rfl⟩
  cases hf : f t <;> simp [do_GET, hp, hu, hf]

/-- Witness for C7 at the concrete path `/proxy?url=a`. -/
theorem do_GET_outbound_request_witness :
    proxyPrefix.isPrefixOf (asciiBytes "/proxy?url=a") = true ∧
    lookupQS (parse_qs ((asciiBytes "/proxy?url=a").drop 7)) urlKey
      = some [asciiBytes "a"] ∧
    ((do_GET (asciiBytes "/proxy?url=a") [] fetchOk).2
        = [{ method := asciiBytes "GET", url := asciiBytes "a",
             headers := [(asciiBytes "User-Agent", userAgentBytes)] }] ∧
      ∀ hs₂, do_GET (asciiBytes "/proxy?url=a") hs₂ fetchOk
        = do_GET (asciiBytes "/proxy?url=a") [] fetchOk) :=
  ⟨by decide, by decide,
    do_GET_outbound_request (asciiBytes "/proxy?url=a") [] fetchOk
      (asciiBytes "a") [] (by decide) (by decide)⟩

/-- C8: when the decoded query maps `url` to two or more values, the
outbound target is the first value, and a request whose query decodes to
the same first `url` value with any other tail of repeated values gets
the structurally identical response. -/
theorem do_GET_first_url_value (p q : List Nat) (hs : List (List Nat × List Nat))
    (f : List Nat → Except (List Nat) (List Nat)) (v w : List Nat)
    (r₁ r₂ : List (List Nat))
    (hp₁ : proxyPrefix.isPrefixOf p = true)
    (hp₂ : proxyPrefix.isPrefixOf q = true)
    (hu₁ : lookupQS (parse_qs (p.drop 7)) urlKey = some (v :: w :: r₁))
    (hu₂ : lookupQS (parse_qs (q.drop 7)) urlKey = some (v :: r₂)) :
    (do_GET p hs f).2.map OutboundRequest.url = [v] ∧
    do_GET p hs f = do_GET q hs f := by
  cases hf : f v <;> simp [do_GET, hp₁, hp₂, hu₁, hu₂, hf]

/-- Witness for C8 at the concrete paths `/proxy?url=a&url=b` and
`/proxy?url=a`. -/
theorem do_GET_first_url_value_witness :
    proxyPrefix.isPrefixOf (asciiBytes "/proxy?url=a&url=b") = true ∧
    proxyPrefix.isPrefixOf (asciiBytes "/proxy?url=a") = true ∧
    lookupQS (parse_qs ((asciiBytes "/proxy?url=a&url=b").drop 7)) urlKey
      = some [asciiBytes "a", asciiBytes "b"] ∧
    lookupQS (parse_qs ((asciiBytes "/proxy?url=a").drop 7)) urlKey
      = some [asciiBytes "a"] ∧
    ((do_GET (asciiBytes "/proxy?url=a&url=b") [] fetchOk).2.map OutboundRequest.url
        = [asciiBytes "a"] ∧
      do_GET (asciiBytes "/proxy?url=a&url=b") [] fetchOk
        = do_GET (asciiBytes "/proxy?url=a") [] fetchOk) :=
  ⟨by decide, by decide, by decide, by decide,
    do_GET_first_url_value (asciiBytes "/proxy?url=a&url=b") (asciiBytes "/proxy?url=a")
      [] fetchOk (asciiBytes "a") (asciiBytes "b") [] []
      (by decide) (by decide) (by decide) (by decide)⟩

/-- C9: the GET handler is deterministic in its inputs: two requests with
the same path, whose fetch oracles agree on the derived target, get
structurally identical responses, whatever the caller headers; the
handler is a pure function of its inputs, so no state is carried across
requests. -/
theorem do_GET_deterministic (p : List Nat)
    (hs₁ hs₂ : List (List Nat × List Nat))
    (f₁ f₂ : List Nat → Except (List Nat) (List Nat))
    (h : ∀ t r, lookupQS (parse_qs (p.drop 7)) urlKey = some (t :: r) → f₁ t = f₂ t) :
    do_GET p hs₁ f₁ = do_GET p hs₂ f₂ := by
  cases hp : proxyPrefix.isPrefixOf p with
  | false => simp [do_GET, hp]
  | true =>
    cases hu : lookupQS (parse_qs (p.drop 7)) urlKey with
    | none => simp [do_GET, hp, hu]
    | some vs =>
      cases vs with
      | nil => simp [do_GET, hp, hu]
      | cons t r => simp [do_GET, hp, hu, h t r hu]

/-- Witness for C9 at the concrete path `/proxy?url=a` with two distinct
oracles that agree on the derived target `a`. -/
theorem do_GET_deterministic_witness :
    fetchOk [97] = fetchOkOnA [97] ∧
    do_GET (asciiBytes "/proxy?url=a") [] fetchOk
      = do_GET (asciiBytes "/proxy?url=a") [(asciiBytes "X", asciiBytes "y")] fetchOkOnA :=
  ⟨rfl,
    do_GET_deterministic (asciiBytes "/proxy?url=a") []
      [(asciiBytes "X", asciiBytes "y")] fetchOk fetchOkOnA (by
      intro t r h
      rw [show lookupQS (parse_qs ((asciiBytes "/proxy?url=a").drop 7)) urlKey
            = some [[97]] from by decide] at h
      injection h with h
      injection h with h₁ h₂
      rw [← h₁]
      rfl)⟩

/-- C10: a `url` parameter that is present with a blank value is treated
exactly like a missing `url` parameter, because `parse_qsl` with blank
values dropped discards the pair: both `/proxy?url=` and
`/proxy?url=&foo=bar` get the 400 missing-parameter response with no
outbound request, for every caller-header list and fetch oracle. -/
theorem do_GET_blank_url_value (hs : List (List Nat × List Nat))
    (f : List Nat → Except (List Nat) (List Nat)) :
    parse_qsl (asciiBytes "url=") = [] ∧
    do_GET (asciiBytes "/proxy?url=") hs f = (send_error 400 missingUrlMsg, []) ∧
    do_GET (asciiBytes "/proxy?url=&foo=bar") hs f = (send_error 400 missingUrlMsg, []) := by
  refine ⟨by decide, ?_, ?_⟩
  · have hp : proxyPrefix.isPrefixOf (asciiBytes "/proxy?url=") = true := by decide
    have hu : lookupQS (parse_qs ((asciiBytes "/proxy?url=").drop 7)) urlKey = none := by
      decide
    simp [do_GET, hp, hu]
  · have hp : proxyPrefix.isPrefixOf (asciiBytes "/proxy?url=&foo=bar") = true := by
      decide
    have hu : lookupQS (parse_qs ((asciiBytes "/proxy?url=&foo=bar").drop 7)) urlKey
        = none := by decide
    simp [do_GET, hp, hu]

end CorsProxy
